import Mathlib

/-!
Verification of the Market Signal Synthesis Engine of a crypto trading agent.

The indicator layer (`src/mastra/tools/technical-analysis.ts`), the sentiment
normalizer (`src/mastra/tools/market-sentiment.ts`) and the decision fusion
step (`src/mastra/tools/trading-recommendation.ts`) are shallowly embedded
below.  JavaScript numbers are modelled as rationals (`ℚ`), nullable numbers
as `Option ℚ`, and the categorical labels as the literal strings the code
uses.  Each embedded definition mirrors one source function, keeping its name.
-/

namespace TradingAgent

/-- Whether `pat` occurs at the head of `l`. -/
def startsWithList : List Char → List Char → Bool
  | [], _ => true
  | _ :: _, [] => false
  | a :: as, b :: bs => a = b && startsWithList as bs

/-- Whether `pat` occurs contiguously anywhere in `l`. -/
def occursIn (pat l : List Char) : Bool :=
  startsWithList pat l ||
    match l with
    | [] => false
    | _ :: t => occursIn pat t

/-- JS `haystack.includes(needle)`: substring containment on strings,
modelled as contiguous containment on the underlying character lists. -/
def strContains (haystack needle : String) : Bool :=
  occursIn needle.toList haystack.toList

/-! ## Indicator Calculator (`technical-analysis.ts`) -/

/-- `calculateSMA` (technical-analysis.ts lines 65-72): `null` when the
series has fewer than `period` points, otherwise the sum of the last
`period` closes (`prices.slice(prices.length - period)`) divided by
`period`. -/
def calculateSMA (prices : List ℚ) (period : ℕ) : Option ℚ :=
  if prices.length < period then
    none
  else
    some ((prices.drop (prices.length - period)).sum / (period : ℚ))

/-- The smoothing constant `k = 2 / (period + 1)` of `calculateEMA`. -/
def emaK (period : ℕ) : ℚ := 2 / ((period : ℚ) + 1)

/-- `calculateEMA` (technical-analysis.ts lines 74-87): `null` when the
series has fewer than `period` points; otherwise a left-to-right loop
starting from `ema = prices[0]` that folds `ema = prices[i]*k + ema*(1-k)`
over the remaining prices. -/
def calculateEMA (prices : List ℚ) (period : ℕ) : Option ℚ :=
  if prices.length < period then
    none
  else
    some (prices.tail.foldl
      (fun ema p => p * emaK period + ema * (1 - emaK period))
      (prices.headD 0))

/-- Result triple of `calculateMACD` (`{ macd, signal, histogram }`). -/
structure MACDResult where
  macd : Option ℚ
  signal : Option ℚ
  histogram : Option ℚ
  deriving Repr, DecidableEq

/-- `calculateMACD` (technical-analysis.ts lines 89-108): all three fields
`null` when fewer than 26 points; otherwise `macd = EMA12 - EMA26`, the
signal line is the 9-period EMA of eight zeros followed by `macd`
(`calculateEMA([...Array(8).fill(0), macd], 9)`), and
`histogram = macd - (signal || 0)`. -/
def calculateMACD (prices : List ℚ) : MACDResult :=
  if prices.length < 26 then
    ⟨none, none, none⟩
  else
    match calculateEMA prices 12, calculateEMA prices 26 with
    | some ema12, some ema26 =>
        let macd := ema12 - ema26
        let signal := calculateEMA (List.replicate 8 0 ++ [macd]) 9
        let histogram := macd - signal.getD 0
        ⟨some macd, signal, some histogram⟩
    | _, _ => ⟨none, none, none⟩

/-- The `changes` array of `calculateRSI`: consecutive deltas
`prices[i] - prices[i-1]`, oldest first. -/
def deltas : List ℚ → List ℚ
  | p₀ :: p₁ :: rest => (p₁ - p₀) :: deltas (p₁ :: rest)
  | _ => []

/-- The `avgGain` of `calculateRSI`: positive deltas (others clamped to 0),
restricted to the last `period` entries (`gains.slice(-period)`), summed and
divided by `period`. -/
def avgGainOf (prices : List ℚ) (period : ℕ) : ℚ :=
  let gains := (deltas prices).map (fun c => if 0 < c then c else 0)
  (gains.drop (gains.length - period)).sum / (period : ℚ)

/-- The `avgLoss` of `calculateRSI`: absolute values of negative deltas
(others clamped to 0), restricted to the last `period` entries, summed and
divided by `period`. -/
def avgLossOf (prices : List ℚ) (period : ℕ) : ℚ :=
  let losses := (deltas prices).map (fun c => if c < 0 then |c| else 0)
  (losses.drop (losses.length - period)).sum / (period : ℚ)

/-- `calculateRSI` (technical-analysis.ts lines 110-134, default period 14):
`null` unless the series has strictly more than `period` points; `100` when
the average loss is exactly zero; otherwise `100 - 100 / (1 + rs)` with
`rs = avgGain / avgLoss`. -/
def calculateRSI (prices : List ℚ) (period : ℕ := 14) : Option ℚ :=
  if prices.length ≤ period then
    none
  else if avgLossOf prices period = 0 then
    some 100
  else
    some (100 - 100 / (1 + avgGainOf prices period / avgLossOf prices period))

/-- The `rsiSignal` classification of `performTechnicalAnalysis`
(technical-analysis.ts lines 221-228): `"neutral"` for an absent RSI,
otherwise `"overbought"` when `rsi > 70`, `"oversold"` when `rsi < 30`,
`"neutral"` otherwise. -/
def rsiSignalOf (rsi : Option ℚ) : String :=
  match rsi with
  | none => "neutral"
  | some v =>
      if 70 < v then "overbought"
      else if v < 30 then "oversold"
      else "neutral"

/-- The `sma99` computed by `performTechnicalAnalysis` (technical-analysis.ts
line 203): `calculateSMA(prices, Math.min(99, prices.length - 1))`. -/
def sma99Of (prices : List ℚ) : Option ℚ :=
  calculateSMA prices (min 99 (prices.length - 1))

/-- The `macdSignal` classification of `performTechnicalAnalysis`
(technical-analysis.ts lines 263-293): stays `"neutral"` unless all three
MACD fields are present; then the histogram is compared against the noise
floor `0.0001 * currentPrice`, with `strongly` variants when the main line's
sign agrees. -/
def macdSignalOf (r : MACDResult) (currentPrice : ℚ) : String :=
  match r.histogram, r.signal, r.macd with
  | some histogram, some _, some macd =>
      if 0 < histogram ∧ (1 / 10000 : ℚ) * currentPrice < histogram then
        if 0 < macd then "strongly bullish" else "bullish"
      else if histogram < 0 ∧ (1 / 10000 : ℚ) * currentPrice < |histogram| then
        if macd < 0 then "strongly bearish" else "bearish"
      else "neutral"
  | _, _, _ => "neutral"

/-! ## Sentiment Normalizer (`market-sentiment.ts`) -/

/-- The `fearGreedDescription` bands of `analyzeMarketSentiment`
(market-sentiment.ts lines 62-73), starting from the default `'Neutral'`. -/
def fearGreedDescriptionOf (fearGreedIndex : ℤ) : String :=
  if 0 ≤ fearGreedIndex ∧ fearGreedIndex ≤ 25 then "Extreme Fear"
  else if 25 < fearGreedIndex ∧ fearGreedIndex ≤ 45 then "Fear"
  else if 45 < fearGreedIndex ∧ fearGreedIndex ≤ 55 then "Neutral"
  else if 55 < fearGreedIndex ∧ fearGreedIndex ≤ 75 then "Greed"
  else if 75 < fearGreedIndex ∧ fearGreedIndex ≤ 100 then "Extreme Greed"
  else "Neutral"

/-- The `marketSentiment` interpretation phrase of `analyzeMarketSentiment`
(market-sentiment.ts lines 75-84), derived 1:1 from the description. -/
def interpretationOf (fearGreedIndex : ℤ) : String :=
  let d := fearGreedDescriptionOf fearGreedIndex
  if d = "Extreme Fear" then "extremely bearish (potentially oversold)"
  else if d = "Fear" then "bearish"
  else if d = "Greed" then "bullish"
  else if d = "Extreme Greed" then "extremely bullish (potentially overbought)"
  else "neutral"

/-! ## Decision Fusion Engine (`trading-recommendation.ts`)

The input records mirror `TechnicalDataInput` and `SentimentDataInput`; the
output mirrors the `recommendation` object (minus the wall-clock timestamp,
which is outside a pure embedding). -/

structure SMAInput where
  sma7 : Option ℚ
  sma25 : Option ℚ
  sma99 : Option ℚ
  aboveSMA7 : Bool
  aboveSMA25 : Bool
  aboveSMA99 : Bool

structure TechnicalIndicatorsInput where
  sma : SMAInput
  rsi : Option ℚ
  rsiSignal : String
  trend : String

structure TechnicalDataInput where
  symbol : String
  currentPrice : ℚ
  technicalIndicators : TechnicalIndicatorsInput

structure FearGreedIndexInput where
  value : ℚ
  description : String
  classification : String

structure MarketSentimentDataInput where
  globalFearGreedIndex : FearGreedIndexInput
  interpretation : String
  timestamp : String
  timeUpdated : String

structure SentimentDataInput where
  symbol : String
  marketSentimentData : MarketSentimentDataInput

structure Recommendation where
  signal : String
  confidenceLevel : String
  recommendedTimeframe : String
  technicalAnalysisSignal : String
  marketSentimentSignal : String

/-- The `technicalSignal` computation of `generateTradingRecommendation`
(trading-recommendation.ts lines 99-110): initialised to `"LONG"`, set by
the trend label, then flipped by the overbought/oversold RSI override. -/
def technicalSignalOf (trend rsiSignal : String) : String :=
  let base : String :=
    if trend = "strongly bullish" ∨ trend = "bullish" then "LONG"
    else if trend = "strongly bearish" ∨ trend = "bearish" then "SHORT"
    else "LONG"
  if rsiSignal = "overbought" ∧ base = "LONG" then "SHORT"
  else if rsiSignal = "oversold" ∧ base = "SHORT" then "LONG"
  else base

/-- The `sentimentSignal` computation of `generateTradingRecommendation`
(trading-recommendation.ts lines 112-123): `includes`-based branching on the
interpretation phrase. -/
def sentimentSignalOf (marketSentiment : String) : String :=
  if strContains marketSentiment "bullish" then
    if strContains marketSentiment "extremely" && strContains marketSentiment "overbought"
    then "SHORT" else "LONG"
  else if strContains marketSentiment "bearish" then
    if strContains marketSentiment "extremely" && strContains marketSentiment "oversold"
    then "LONG" else "SHORT"
  else "LONG"

/-- The `finalSignal` computation of `generateTradingRecommendation`
(trading-recommendation.ts lines 125-132): both the agreement and the
disagreement branch assign `technicalSignal`. -/
def finalSignalOf (technicalSignal sentimentSignal : String) : String :=
  if technicalSignal = sentimentSignal then technicalSignal
  else technicalSignal

/-- The `recommendedTimeframe` computation of `generateTradingRecommendation`
(trading-recommendation.ts lines 134-139). -/
def recommendedTimeframeOf (finalSignal trend : String) : String :=
  if finalSignal = "LONG" ∧ trend = "strongly bullish" then "long-term"
  else if finalSignal = "SHORT" ∧ trend = "strongly bearish" then "short-term"
  else "medium-term"

/-- The `confidenceLevel` computation of `generateTradingRecommendation`
(trading-recommendation.ts lines 141-146). -/
def confidenceLevelOf
    (technicalSignal sentimentSignal trend marketSentiment : String) : String :=
  if technicalSignal = sentimentSignal ∧
      (strContains trend "strongly" || strContains marketSentiment "extremely")
  then "high"
  else if technicalSignal ≠ sentimentSignal then "low"
  else "medium"

/-- `generateTradingRecommendation` (trading-recommendation.ts lines 88-191),
restricted to the `recommendation` payload of its success result.  The
`try`/`catch` can only take the success path on well-typed inputs, since the
body performs no fallible operation. -/
def generateTradingRecommendation
    (technicalData : TechnicalDataInput) (sentimentData : SentimentDataInput) :
    Recommendation :=
  let trend := technicalData.technicalIndicators.trend
  let rsiSignal := technicalData.technicalIndicators.rsiSignal
  let marketSentiment := sentimentData.marketSentimentData.interpretation
  let technicalSignal := technicalSignalOf trend rsiSignal
  let sentimentSignal := sentimentSignalOf marketSentiment
  let finalSignal := finalSignalOf technicalSignal sentimentSignal
  { signal := finalSignal
    confidenceLevel :=
      confidenceLevelOf technicalSignal sentimentSignal trend marketSentiment
    recommendedTimeframe := recommendedTimeframeOf finalSignal trend
    technicalAnalysisSignal := technicalSignal
    marketSentimentSignal := sentimentSignal }

/-! ## Spec-side reference definitions

These restate, word for word, the derivations the specification describes,
so that each fusion claim becomes an equality between the embedded code and
the spec's description. -/

/-- Spec wording: technical direction is LONG when the trend label is
bullish or strongly-bullish, SHORT when bearish or strongly-bearish, and
defaults to LONG for neutral; then the overbought/oversold momentum
override flips it. -/
def specTechnicalDirection (trend rsiSignal : String) : String :=
  let d0 : String :=
    if trend = "bullish" ∨ trend = "strongly bullish" then "LONG"
    else if trend = "bearish" ∨ trend = "strongly bearish" then "SHORT"
    else "LONG"
  if rsiSignal = "overbought" ∧ d0 = "LONG" then "SHORT"
  else if rsiSignal = "oversold" ∧ d0 = "SHORT" then "LONG"
  else d0

/-- The interpretation phrase the Sentiment Normalizer emits for the
extremely-bullish band. -/
def extremelyBullishLabel : String := "extremely bullish (potentially overbought)"

/-- The interpretation phrase the Sentiment Normalizer emits for the
extremely-bearish band. -/
def extremelyBearishLabel : String := "extremely bearish (potentially oversold)"

/-- Spec wording: sentiment direction is LONG if the label contains
"bullish" (flipped to SHORT exactly when the label is the extremely-bullish
one), SHORT if it contains "bearish" (flipped to LONG exactly for the
extremely-bearish one), and LONG when it contains neither word. -/
def specSentimentDirection (label : String) : String :=
  if strContains label "bullish" then
    if label = extremelyBullishLabel then "SHORT" else "LONG"
  else if strContains label "bearish" then
    if label = extremelyBearishLabel then "LONG" else "SHORT"
  else "LONG"

/-! ## Decision-fusion theorems -/

/-- C1: tie-break invariant of decision fusion — for every technical and
sentiment input pair, the final recommendation direction equals the
technical direction; the sentiment direction is reported alongside but
never changes the final call. -/
theorem synthesize_tiebreak
    (td : TechnicalDataInput) (sd : SentimentDataInput) :
    (generateTradingRecommendation td sd).signal =
      technicalSignalOf td.technicalIndicators.trend
        td.technicalIndicators.rsiSignal ∧
    (generateTradingRecommendation td sd).signal =
      (generateTradingRecommendation td sd).technicalAnalysisSignal := by
  constructor <;>
    simp [generateTradingRecommendation, finalSignalOf, ite_self]

/-- C2: the technical direction is LONG for bullish/strongly-bullish
trends, SHORT for bearish/strongly-bearish, LONG by default for neutral
(neutral never yields SHORT), and is then flipped by the
overbought-while-LONG / oversold-while-SHORT momentum override — exactly
the spec's derivation. -/
theorem technicalDirection_spec (trend rsiSignal : String) :
    technicalSignalOf trend rsiSignal = specTechnicalDirection trend rsiSignal := by
  simp only [technicalSignalOf, specTechnicalDirection]
  split_ifs <;> first | rfl | tauto

/-- C3: confidence is low whenever the technical and sentiment directions
disagree; high when they agree and the trend label carries "strongly" or
the sentiment label carries "extremely"; medium in every other case. -/
theorem confidence_spec (td : TechnicalDataInput) (sd : SentimentDataInput) :
    ((generateTradingRecommendation td sd).technicalAnalysisSignal ≠
        (generateTradingRecommendation td sd).marketSentimentSignal →
      (generateTradingRecommendation td sd).confidenceLevel = "low") ∧
    ((generateTradingRecommendation td sd).technicalAnalysisSignal =
        (generateTradingRecommendation td sd).marketSentimentSignal →
      (strContains td.technicalIndicators.trend "strongly" = true ∨
        strContains sd.marketSentimentData.interpretation "extremely" = true) →
      (generateTradingRecommendation td sd).confidenceLevel = "high") ∧
    ((generateTradingRecommendation td sd).technicalAnalysisSignal =
        (generateTradingRecommendation td sd).marketSentimentSignal →
      ¬(strContains td.technicalIndicators.trend "strongly" = true ∨
          strContains sd.marketSentimentData.interpretation "extremely" = true) →
      (generateTradingRecommendation td sd).confidenceLevel = "medium") := by
  simp only [generateTradingRecommendation, confidenceLevelOf]
  refine ⟨fun hne => ?_, fun he hq => ?_, fun he hq => ?_⟩
  · rw [if_neg (fun hc => hne hc.1), if_pos hne]
  · rw [if_pos ⟨he, by simpa [Bool.or_eq_true] using hq⟩]
  · rw [if_neg (fun hc => hq (by simpa [Bool.or_eq_true] using hc.2)),
      if_neg (fun hne => hne he)]

/-- Sample technical-data input used to witness fusion theorems. -/
def sampleTechnical (trend rsiSignal : String) : TechnicalDataInput :=
  { symbol := "BTC", currentPrice := 100,
    technicalIndicators :=
      { sma := { sma7 := none, sma25 := none, sma99 := none,
                 aboveSMA7 := true, aboveSMA25 := true, aboveSMA99 := true },
        rsi := none, rsiSignal := rsiSignal, trend := trend } }

/-- Sample sentiment-data input used to witness fusion theorems. -/
def sampleSentiment (interpretation : String) : SentimentDataInput :=
  { symbol := "BTC",
    marketSentimentData :=
      { globalFearGreedIndex :=
          { value := 60, description := "Greed", classification := "Greed" },
        interpretation := interpretation, timestamp := "0", timeUpdated := "0" } }

/-- Witness for C3: a strongly-bullish trend with agreeing bullish
sentiment yields high confidence. -/
theorem confidence_spec_witness :
    (generateTradingRecommendation (sampleTechnical "strongly bullish" "neutral")
        (sampleSentiment "bullish")).technicalAnalysisSignal =
      (generateTradingRecommendation (sampleTechnical "strongly bullish" "neutral")
        (sampleSentiment "bullish")).marketSentimentSignal ∧
    (generateTradingRecommendation (sampleTechnical "strongly bullish" "neutral")
        (sampleSentiment "bullish")).confidenceLevel = "high" :=
  ⟨by decide,
    (confidence_spec (sampleTechnical "strongly bullish" "neutral")
        (sampleSentiment "bullish")).2.1 (by decide) (Or.inl (by decide))⟩

/-- C4: over every interpretation phrase the Sentiment Normalizer can emit,
the sentiment direction is LONG for labels containing "bullish" except the
extremely-bullish label (flipped to SHORT), SHORT for labels containing
"bearish" except the extremely-bearish label (flipped to LONG), and LONG
for labels containing neither word. -/
theorem sentimentDirection_spec (fearGreedIndex : ℤ) :
    sentimentSignalOf (interpretationOf fearGreedIndex) =
      specSentimentDirection (interpretationOf fearGreedIndex) := by
  simp only [interpretationOf]
  split_ifs <;> decide

/-! ## Indicator-calculator theorems -/

/-- Spec wording: the arithmetic mean of a list of closes. -/
def arithmeticMean (closes : List ℚ) : ℚ := closes.sum / (closes.length : ℚ)

/-- Spec wording: the last `period` closes of the series. -/
def lastCloses (prices : List ℚ) (period : ℕ) : List ℚ :=
  prices.drop (prices.length - period)

/-- C5: the simple moving average returns insufficient data when the series
has fewer than `period` points, otherwise the arithmetic mean of the last
`period` closes; for a series of length exactly `period` it is the mean of
the whole series. -/
theorem sma_contract (prices : List ℚ) (period : ℕ) :
    (prices.length < period → calculateSMA prices period = none) ∧
    (period ≤ prices.length →
      calculateSMA prices period = some (arithmeticMean (lastCloses prices period))) ∧
    (prices.length = period →
      calculateSMA prices period = some (arithmeticMean prices)) := by
  refine ⟨fun h => by simp [calculateSMA, h], fun h => ?_, fun h => ?_⟩
  · rw [calculateSMA, if_neg (not_lt.2 h)]
    have hlen : (lastCloses prices period).length = period := by
      simp [lastCloses]
      omega
    rw [arithmeticMean, hlen, lastCloses]
  · rw [calculateSMA, if_neg (not_lt.2 h.ge)]
    rw [arithmeticMean, h]
    simp [h]

/-- Witness for C5: a 1-point series is too short for period 2, and a
3-point series of length exactly 3 averages the whole series. -/
theorem sma_contract_witness :
    (([1] : List ℚ).length < 2 ∧ calculateSMA [1] 2 = none) ∧
    (([1, 2, 3] : List ℚ).length = 3 ∧
      calculateSMA [1, 2, 3] 3 = some (arithmeticMean [1, 2, 3])) :=
  ⟨⟨by decide, (sma_contract [1] 2).1 (by decide)⟩,
    ⟨by decide, (sma_contract [1, 2, 3] 3).2.2 (by decide)⟩⟩

/-- Spec wording of the EMA recurrence: from an accumulator seeded with the
first price, fold `ema[i] = price[i] * k + ema[i-1] * (1 - k)` left to
right. -/
def emaRecFrom (k acc : ℚ) : List ℚ → ℚ
  | [] => acc
  | p :: ps => emaRecFrom k (p * k + acc * (1 - k)) ps

/-- Spec wording of the full EMA contract: insufficient data below `period`
points, otherwise the recurrence with `k = 2 / (period + 1)` seeded with
the first price and applied over the entire series. -/
def emaSpec (prices : List ℚ) (period : ℕ) : Option ℚ :=
  if prices.length < period then none
  else some (emaRecFrom (2 / ((period : ℚ) + 1)) (prices.headD 0) prices.tail)

/-- The embedded fold agrees with the spec's recurrence for every
accumulator. -/
theorem foldl_emaRecFrom (k : ℚ) (ps : List ℚ) :
    ∀ acc : ℚ,
      ps.foldl (fun ema p => p * k + ema * (1 - k)) acc = emaRecFrom k acc ps := by
  induction ps with
  | nil => intro acc; rfl
  | cons p ps ih => intro acc; simpa [List.foldl, emaRecFrom] using ih _

/-- C9: the exponential moving average returns insufficient data when the
series has fewer than `period` points, and otherwise the left-to-right
recurrence `ema[i] = price[i]*k + ema[i-1]*(1-k)` with `k = 2/(period+1)`,
seeded with the first price and applied over the entire series. -/
theorem ema_contract (prices : List ℚ) (period : ℕ) :
    calculateEMA prices period = emaSpec prices period := by
  rw [calculateEMA, emaSpec]
  split_ifs with h
  · rfl
  · rw [emaK, foldl_emaRecFrom]

/-- The clamped gains are nonnegative, so the average gain is too. -/
theorem avgGainOf_nonneg (prices : List ℚ) (period : ℕ) :
    0 ≤ avgGainOf prices period := by
  rw [avgGainOf]
  refine div_nonneg (List.sum_nonneg ?_) (by positivity)
  intro x hx
  obtain ⟨c, -, rfl⟩ := List.mem_map.1 (List.mem_of_mem_drop hx)
  split_ifs with h
  · exact h.le
  · exact le_refl 0

/-- The clamped losses are nonnegative, so the average loss is too. -/
theorem avgLossOf_nonneg (prices : List ℚ) (period : ℕ) :
    0 ≤ avgLossOf prices period := by
  rw [avgLossOf]
  refine div_nonneg (List.sum_nonneg ?_) (by positivity)
  intro x hx
  obtain ⟨c, -, rfl⟩ := List.mem_map.1 (List.mem_of_mem_drop hx)
  split_ifs with h
  · exact abs_nonneg c
  · exact le_refl 0

/-- C6: for a positive period, the momentum oscillator returns insufficient
data on series with at most `period` points; on longer series it returns a
value inside `[0, 100]`, and exactly `100` whenever the average loss over
the last `period` deltas is zero. -/
theorem rsi_contract (prices : List ℚ) (period : ℕ) (_hp : 0 < period) :
    (prices.length ≤ period → calculateRSI prices period = none) ∧
    (period < prices.length →
      ∃ v, calculateRSI prices period = some v ∧ 0 ≤ v ∧ v ≤ 100 ∧
        (avgLossOf prices period = 0 → v = 100)) := by
  refine ⟨fun h => by simp [calculateRSI, h], fun h => ?_⟩
  have hnle : ¬prices.length ≤ period := not_le.2 h
  by_cases hz : avgLossOf prices period = 0
  · exact ⟨100, by simp [calculateRSI, hnle, hz], by norm_num, by norm_num,
      fun _ => rfl⟩
  · have hlpos : 0 < avgLossOf prices period :=
      lt_of_le_of_ne (avgLossOf_nonneg prices period) (Ne.symm hz)
    have hrs : 0 ≤ avgGainOf prices period / avgLossOf prices period :=
      div_nonneg (avgGainOf_nonneg prices period) hlpos.le
    have hone : (1 : ℚ) ≤ 1 + avgGainOf prices period / avgLossOf prices period := by
      linarith
    have hdivle : (100 : ℚ) / (1 + avgGainOf prices period / avgLossOf prices period)
        ≤ 100 := div_le_self (by norm_num) hone
    have hdivpos : (0 : ℚ) < 100 / (1 + avgGainOf prices period / avgLossOf prices period) :=
      div_pos (by norm_num) (by linarith)
    refine ⟨100 - 100 / (1 + avgGainOf prices period / avgLossOf prices period),
      by simp [calculateRSI, hnle, hz], by linarith, by linarith,
      fun h0 => absurd h0 hz⟩

/-- Witness for C6: prices `[1, 2]` with period 1 have more than one point,
only a gain, hence oscillator value exactly 100. -/
theorem rsi_contract_witness :
    (0 : ℕ) < 1 ∧ 1 < ([1, 2] : List ℚ).length ∧
      ∃ v, calculateRSI [1, 2] 1 = some v ∧ 0 ≤ v ∧ v ≤ 100 ∧
        (avgLossOf [1, 2] 1 = 0 → v = 100) :=
  ⟨by decide, by decide, (rsi_contract [1, 2] 1 (by decide)).2 (by decide)⟩

/-- C7 counterexample: the boundary values 30 and 70 classify as neutral,
not as oversold/overbought — the comparisons in the code are strict. -/
theorem rsiSignal_boundary_counterexample :
    rsiSignalOf (some 30) = "neutral" ∧ rsiSignalOf (some 30) ≠ "oversold" ∧
    rsiSignalOf (some 70) = "neutral" ∧ rsiSignalOf (some 70) ≠ "overbought" := by
  refine ⟨rfl, ?_, rfl, ?_⟩ <;> decide

/-- C7 (amended): for every computed oscillator value `v`, the momentum
signal is oversold iff `v < 30`, overbought iff `v > 70`, and neutral iff
`30 ≤ v ≤ 70` — strict comparisons, so 30 and 70 classify as neutral. -/
theorem rsiSignal_thresholds (v : ℚ) :
    (rsiSignalOf (some v) = "oversold" ↔ v < 30) ∧
    (rsiSignalOf (some v) = "overbought" ↔ 70 < v) ∧
    (rsiSignalOf (some v) = "neutral" ↔ 30 ≤ v ∧ v ≤ 70) := by
  rw [rsiSignalOf]
  split_ifs with h1 h2
  · refine ⟨⟨fun h => absurd h (by decide), fun h => absurd h1 (by linarith)⟩,
      ⟨fun _ => h1, fun _ => rfl⟩,
      ⟨fun h => absurd h (by decide), fun h => absurd h1 (by linarith [h.2])⟩⟩
  · refine ⟨⟨fun _ => h2, fun _ => rfl⟩,
      ⟨fun h => absurd h (by decide), fun h => absurd h h1⟩,
      ⟨fun h => absurd h (by decide), fun h => absurd h2 (by linarith [h.1])⟩⟩
  · refine ⟨⟨fun h => absurd h (by decide), fun h => absurd h h2⟩,
      ⟨fun h => absurd h (by decide), fun h => absurd h h1⟩,
      ⟨fun _ => ⟨by linarith [not_lt.1 h2], not_lt.1 h1⟩, fun _ => rfl⟩⟩

/-- C8: the MACD triple is entirely absent exactly when the series has
fewer than 26 points; with at least 26 points the main line is
EMA(12) − EMA(26), the signal is the 9-period EMA of eight zeros followed
by the main-line value, and the histogram is their difference; absent
fields classify as neutral downstream. -/
theorem macd_contract (prices : List ℚ) (currentPrice : ℚ) :
    ((calculateMACD prices).macd = none ∧ (calculateMACD prices).signal = none ∧
        (calculateMACD prices).histogram = none ↔ prices.length < 26) ∧
    (prices.length < 26 →
      macdSignalOf (calculateMACD prices) currentPrice = "neutral") ∧
    (26 ≤ prices.length →
      ∃ ema12 ema26 s,
        calculateEMA prices 12 = some ema12 ∧
        calculateEMA prices 26 = some ema26 ∧
        calculateEMA (List.replicate 8 0 ++ [ema12 - ema26]) 9 = some s ∧
        (calculateMACD prices).macd = some (ema12 - ema26) ∧
        (calculateMACD prices).signal = some s ∧
        (calculateMACD prices).histogram = some (ema12 - ema26 - s)) := by
  by_cases h : prices.length < 26
  · refine ⟨⟨fun _ => h, fun _ => by simp [calculateMACD, h]⟩,
      fun _ => ?_, fun h26 => absurd h (not_lt.2 h26)⟩
    simp [calculateMACD, h, macdSignalOf]
  · have h26 : 26 ≤ prices.length := not_lt.1 h
    have h12 : calculateEMA prices 12 =
        some (prices.tail.foldl
          (fun ema p => p * emaK 12 + ema * (1 - emaK 12)) (prices.headD 0)) := by
      rw [calculateEMA, if_neg (by omega)]
    have h26e : calculateEMA prices 26 =
        some (prices.tail.foldl
          (fun ema p => p * emaK 26 + ema * (1 - emaK 26)) (prices.headD 0)) := by
      rw [calculateEMA, if_neg (by omega)]
    set e12 := prices.tail.foldl
      (fun ema p => p * emaK 12 + ema * (1 - emaK 12)) (prices.headD 0) with he12
    set e26 := prices.tail.foldl
      (fun ema p => p * emaK 26 + ema * (1 - emaK 26)) (prices.headD 0) with he26
    have hsig : calculateEMA (List.replicate 8 0 ++ [e12 - e26]) 9 =
        some ((List.replicate 8 (0 : ℚ) ++ [e12 - e26]).tail.foldl
          (fun ema p => p * emaK 9 + ema * (1 - emaK 9))
          ((List.replicate 8 (0 : ℚ) ++ [e12 - e26]).headD 0)) := by
      rw [calculateEMA, if_neg (by simp)]
    have hm : calculateMACD prices =
        ⟨some (e12 - e26),
          calculateEMA (List.replicate 8 0 ++ [e12 - e26]) 9,
          some (e12 - e26 -
            (calculateEMA (List.replicate 8 0 ++ [e12 - e26]) 9).getD 0)⟩ := by
      rw [calculateMACD, if_neg h, h12, h26e]
    refine ⟨⟨fun hnone => ?_, fun hlt => absurd hlt h⟩,
      fun hlt => absurd hlt h, fun _ => ?_⟩
    · rw [hm] at hnone
      exact absurd hnone.1 (by simp)
    · refine ⟨e12, e26,
        (List.replicate 8 (0 : ℚ) ++ [e12 - e26]).tail.foldl
          (fun ema p => p * emaK 9 + ema * (1 - emaK 9))
          ((List.replicate 8 (0 : ℚ) ++ [e12 - e26]).headD 0),
        h12, h26e, hsig, ?_, ?_, ?_⟩
      · rw [hm]
      · rw [hm]; exact hsig
      · rw [hm, hsig]; rfl

/-- Witness for C8: the all-absent branch on an empty series, and the
computed branch on 26 constant prices. -/
theorem macd_contract_witness :
    (([] : List ℚ).length < 26 ∧
      macdSignalOf (calculateMACD []) 0 = "neutral") ∧
    (26 ≤ (List.replicate 26 (1 : ℚ)).length ∧
      ∃ ema12 ema26 s,
        calculateEMA (List.replicate 26 (1 : ℚ)) 12 = some ema12 ∧
        calculateEMA (List.replicate 26 (1 : ℚ)) 26 = some ema26 ∧
        calculateEMA (List.replicate 8 0 ++ [ema12 - ema26]) 9 = some s ∧
        (calculateMACD (List.replicate 26 (1 : ℚ))).macd = some (ema12 - ema26) ∧
        (calculateMACD (List.replicate 26 (1 : ℚ))).signal = some s ∧
        (calculateMACD (List.replicate 26 (1 : ℚ))).histogram =
          some (ema12 - ema26 - s)) :=
  ⟨⟨by decide, (macd_contract [] 0).2.1 (by decide)⟩,
    ⟨by decide, (macd_contract (List.replicate 26 (1 : ℚ)) 0).2.2 (by decide)⟩⟩

/-- C10: the long moving average reported as `sma99` uses period
`min 99 (length − 1)`, so for every series of at least two points it is
present; only the 7- and 25-period averages can be absent, exactly when the
series is shorter than their periods. -/
theorem sma99_contract (prices : List ℚ) (h2 : 2 ≤ prices.length) :
    (∃ x, sma99Of prices = some x) ∧
    (calculateSMA prices 7 = none ↔ prices.length < 7) ∧
    (calculateSMA prices 25 = none ↔ prices.length < 25) := by
  refine ⟨?_, ?_, ?_⟩
  · rw [sma99Of, calculateSMA, if_neg (by omega)]
    exact ⟨_, rfl⟩
  · rw [calculateSMA]
    split_ifs with h <;> simp [h]
  · rw [calculateSMA]
    split_ifs with h <;> simp [h]

/-- Witness for C10: a 2-point series still has a present `sma99`. -/
theorem sma99_contract_witness :
    2 ≤ ([3, 4] : List ℚ).length ∧
      (∃ x, sma99Of [3, 4] = some x) ∧
      (calculateSMA [3, 4] 7 = none ↔ ([3, 4] : List ℚ).length < 7) ∧
      (calculateSMA [3, 4] 25 = none ↔ ([3, 4] : List ℚ).length < 25) :=
  ⟨by decide, sma99_contract [3, 4] (by decide)⟩

end TradingAgent
